import Mathlib

/-!
Shallow embedding of the `MemoryService` class from
`src/backend/src/memory/memory.service.ts`.

The service keeps three in-process maps (memories, feedback history, user
preferences) and talks to two external collaborators: a durable object store
("Greenfield", PUT/GET/DELETE of JSON blobs keyed by `{userId}/{dataType}`)
and an embedding / vector-search endpoint.  JS `Map` get-or-default is
modelled by total functions with `[]` / `none` defaults; external call
outcomes by an explicit `Env` record.  The durable store's contents are kept
in the state (`remote`) because `getUserPreferences` reads them back; the
vector database is purely external (its search answers come from `Env`).

JS numbers are modelled by `Q`, exact rationals kept in lowest terms: every
numeric value on the analysed code paths (engagement metrics, running
averages `(g+e)/2`, per-hour means, `toFixed(2)` inputs) is a rational that
IEEE-754 doubles represent exactly, so exact rational arithmetic coincides
with the JS arithmetic there.  `Q` is used instead of Mathlib's `Rat` so that
all operations reduce in the kernel and concrete runs are decidable.
-/

namespace SovereignAgent

/-- Euclid's algorithm with explicit fuel, so that the kernel can evaluate it
(the first argument only decreases; with fuel `a + b + 1` it never runs out). -/
def gcdFuel : Nat → Nat → Nat → Nat
  | 0, _, b => b
  | fuel + 1, a, b => if a = 0 then b else gcdFuel fuel (b % a) a

/-- Greatest common divisor via `gcdFuel`. -/
def qgcd (a b : Nat) : Nat := gcdFuel (a + b + 1) a b

/-- Exact rational numbers: numerator `n`, denominator `d`, kept in lowest
terms with `d > 0` by the smart constructor `mkQ` (all arithmetic goes
through it, so computed values are canonical and structural equality is
rational equality). -/
structure Q where
  n : Int
  d : Nat
deriving DecidableEq, Repr

/-- Build the canonical representation of `n / d` (sign on the numerator,
fraction reduced).  `d = 0` never arises on the analysed code paths. -/
def mkQ (n d : Int) : Q :=
  if d = 0 then ⟨0, 0⟩
  else
    let n1 := if d < 0 then -n else n
    let d1 := d.natAbs
    let g := qgcd n1.natAbs d1
    ⟨n1 / (g : Int), d1 / g⟩

instance : OfNat Q k := ⟨⟨(k : Int), 1⟩⟩

instance : NatCast Q := ⟨fun k => ⟨(k : Int), 1⟩⟩

/-- Rational addition. -/
def Q.add (a b : Q) : Q := mkQ (a.n * (b.d : Int) + b.n * (a.d : Int)) ((a.d : Int) * (b.d : Int))

instance : Add Q := ⟨Q.add⟩

/-- Rational multiplication. -/
def Q.mul (a b : Q) : Q := mkQ (a.n * b.n) ((a.d : Int) * (b.d : Int))

instance : Mul Q := ⟨Q.mul⟩

/-- Rational division. -/
def Q.div (a b : Q) : Q := mkQ (a.n * (b.d : Int)) ((a.d : Int) * b.n)

instance : Div Q := ⟨Q.div⟩

instance : LT Q := ⟨fun a b => a.n * (b.d : Int) < b.n * (a.d : Int)⟩

instance (a b : Q) : Decidable (a < b) :=
  inferInstanceAs (Decidable (a.n * (b.d : Int) < b.n * (a.d : Int)))

/-- The `type` field of a `MemoryEntry` (conversation/preference/action/feedback). -/
inductive MemType where
  | conversation
  | preference
  | action
  | feedback
deriving DecidableEq, Repr

/-- The `outcome` field of a `FeedbackEntry`; `other` models the source's
third tag (a partial outcome). -/
inductive Outcome where
  | success
  | failure
  | other
deriving DecidableEq, Repr

/-- The optional numeric `metrics` of a `FeedbackEntry`. -/
structure Metrics where
  engagement : Option Q
  clicks : Option Q
  impressions : Option Q
  sentiment : Option Q
deriving DecidableEq, Repr

/-- Source `MemoryEntry`; `metadata : Record<string, any>` is modelled
as a string association list (no analysed path inspects the values). -/
structure MemoryEntry where
  id : String
  userId : String
  type : MemType
  content : String
  metadata : List (String × String)
  timestamp : Int
  embedding : Option (List Q)
deriving DecidableEq, Repr

/-- Source `FeedbackEntry`. -/
structure FeedbackEntry where
  actionId : String
  userId : String
  outcome : Outcome
  metrics : Metrics
  learnings : List String
  timestamp : Int
deriving DecidableEq, Repr

/-- The per-platform `postingSchedule` field of `UserPreferences`. -/
structure PostingSchedule where
  twitter : Option (List String)
  telegram : Option (List String)
  discord : Option (List String)
  instagram : Option (List String)
  facebook : Option (List String)
deriving DecidableEq, Repr

/-- Source `UserPreferences`; `engagementGoals : Record<string, number>`
is a string-to-number association list. -/
structure UserPreferences where
  userId : String
  writingStyle : List String
  postingSchedule : PostingSchedule
  contentTopics : List String
  avoidTopics : List String
  tonePreference : String
  hashtagStrategy : String
  engagementGoals : List (String × Q)
deriving DecidableEq, Repr

/-- A JSON blob held by the durable object store at key `{userId}/{dataType}.json`. -/
inductive RemoteData where
  | memories (l : List MemoryEntry)
  | feedback (l : List FeedbackEntry)
  | prefs (p : UserPreferences)
deriving DecidableEq, Repr

/-- The service state: the three in-process maps plus the durable store's
contents (`remote userId dataType`). -/
structure MemoryState where
  memories : String → List MemoryEntry
  feedbackHistory : String → List FeedbackEntry
  userPreferences : String → Option UserPreferences
  remote : String → String → Option RemoteData

/-- Outcomes of the external HTTP calls made during one operation:
`embed text` is the `POST /embed` answer (`none` = unreachable, the code then
falls back to a zero vector); `saveOk`/`loadOk`/`deleteOk` say whether the
durable-store PUT/GET/DELETE requests go through; `search` is the
`POST /search` answer (ids, `none` = failure); `getHours` is
`new Date(t).getHours()` (local time, always 0–23); `now` and `learningId`
supply `Date.now()` and the random id minted for each learning entry. -/
structure Env where
  embed : String → Option (List Q)
  saveOk : Bool
  loadOk : Bool
  deleteOk : Bool
  search : String → List Q → Nat → Option (List String)
  getHours : Int → Fin 24
  now : Int
  learningId : Nat → String

/-- JS truthiness of an optional number (`undefined` and `0` are falsy). -/
def truthy (x : Option Q) : Bool :=
  match x with
  | none => false
  | some v => if v = 0 then false else true

/-- JS `x || 0` on an optional number. -/
def jsOrZero (x : Option Q) : Q :=
  match x with
  | none => 0
  | some v => if v = 0 then 0 else v

/-- Property read `goals[k]` on the `engagementGoals` object. -/
def getGoal : List (String × Q) → String → Option Q
  | [], _ => none
  | kv :: rest, k => if kv.1 = k then some kv.2 else getGoal rest k

/-- Property write `goals[k] = v` on the `engagementGoals` object
(replace if present, add otherwise). -/
def setGoal : List (String × Q) → String → Q → List (String × Q)
  | [], k, v => [(k, v)]
  | kv :: rest, k, v => if kv.1 = k then (k, v) :: rest else kv :: setGoal rest k v

/-- Source `generateEmbedding`: `POST /embed`; on failure the catch block returns a
768-length zero vector. -/
def generateEmbedding (env : Env) (text : String) : List Q :=
  match env.embed text with
  | some e => e
  | none => List.replicate 768 0

/-- Source `saveToGreenfield`: `axios.put` to `{userId}/{dataType}.json`; the catch
block swallows any failure (logged only), so the caller always continues and
the state is unchanged when the PUT fails. -/
def saveToGreenfield (env : Env) (st : MemoryState) (userId dataType : String)
    (data : RemoteData) : MemoryState :=
  if env.saveOk then
    { st with remote := fun u d =>
        if u = userId ∧ d = dataType then some data else st.remote u d }
  else st

/-- Source `loadFromGreenfield`: `axios.get` of `{userId}/{dataType}.json`; the catch
block turns any failure into `null`. -/
def loadFromGreenfield (env : Env) (st : MemoryState) (userId dataType : String) :
    Option RemoteData :=
  if env.loadOk then st.remote userId dataType else none

/-- Source `deleteFromGreenfield`: `axios.delete` of the user's objects; the catch
block swallows any failure (logged only). -/
def deleteFromGreenfield (env : Env) (st : MemoryState) (userId : String) :
    MemoryState :=
  if env.deleteOk then
    { st with remote := fun u d => if u = userId then none else st.remote u d }
  else st

/-- The entry as stored by `storeMemory`: the embedding is populated when
absent (`if (!entry.embedding) entry.embedding = await generateEmbedding(...)`). -/
def withEmbedding (env : Env) (entry : MemoryEntry) : MemoryEntry :=
  match entry.embedding with
  | some _ => entry
  | none => { entry with embedding := some (generateEmbedding env entry.content) }

/-- Source `storeMemory`: populate the embedding if absent (zero-vector fallback on
embed failure), append to the user's in-memory list, persist the whole list
(failure swallowed inside `saveToGreenfield`), register the embedding with
the vector DB (external, failure swallowed, no local effect).  No inner step
raises, so the surrounding try/catch always completes normally. -/
def storeMemory (env : Env) (st : MemoryState) (entry : MemoryEntry) :
    Except String MemoryState :=
  let entry1 := withEmbedding env entry
  let userMemories := st.memories entry.userId ++ [entry1]
  let st1 : MemoryState :=
    { st with memories := fun u => if u = entry.userId then userMemories else st.memories u }
  let st2 := saveToGreenfield env st1 entry.userId "memories" (RemoteData.memories userMemories)
  Except.ok st2

/-- Source `searchSimilarMemories`: ask the vector DB for ids, then filter the local
cache for the user by those ids; any failure yields `[]`. -/
def searchSimilarMemories (env : Env) (st : MemoryState) (userId : String)
    (queryEmbedding : List Q) (limit : Nat) : List MemoryEntry :=
  match env.search userId queryEmbedding limit with
  | none => []
  | some memoryIds => (st.memories userId).filter (fun m => memoryIds.contains m.id)

/-- Source `retrieveMemories`: embed the query and search; failures degrade to `[]`. -/
def retrieveMemories (env : Env) (st : MemoryState) (userId query : String)
    (limit : Nat) : List MemoryEntry :=
  let queryEmbedding := generateEmbedding env query
  searchSimilarMemories env st userId queryEmbedding limit

/-- Source `getUserPreferences`: cache first, else durable-store read (populating the
cache on a hit); `none` when never set or when the load fails. -/
def getUserPreferences (env : Env) (st : MemoryState) (userId : String) :
    MemoryState × Option UserPreferences :=
  match st.userPreferences userId with
  | some p => (st, some p)
  | none =>
    match loadFromGreenfield env st userId "preferences" with
    | some (RemoteData.prefs p) =>
      ({ st with userPreferences := fun u => if u = userId then some p else st.userPreferences u },
       some p)
    | _ => (st, none)

/-- Source `updateUserPreferences`: unconditional overwrite of the cache entry and
the durable record for `preferences.userId`. -/
def updateUserPreferences (env : Env) (st : MemoryState) (p : UserPreferences) :
    Except String MemoryState :=
  let st1 : MemoryState :=
    { st with userPreferences := fun u => if u = p.userId then some p else st.userPreferences u }
  Except.ok (saveToGreenfield env st1 p.userId "preferences" (RemoteData.prefs p))

/-- The `MemoryEntry` minted for one learning string inside
`updatePreferencesFromFeedback` (`learning_${Date.now()}_${Math.random()}` ids
are supplied by `env.learningId`). -/
def mkLearningEntry (env : Env) (fb : FeedbackEntry) (i : Nat) (learning : String) :
    MemoryEntry :=
  { id := env.learningId i
    userId := fb.userId
    type := MemType.feedback
    content := learning
    metadata := [("actionId", fb.actionId)]
    timestamp := env.now
    embedding := none }

/-- The `for (const learning of feedback.learnings)` loop: sequential
`storeMemory` calls, any raised error propagating (none ever is raised). -/
def storeLearnings (env : Env) (fb : FeedbackEntry) :
    MemoryState → Nat → List String → Except String MemoryState
  | st, _, [] => Except.ok st
  | st, i, learning :: rest =>
    match storeMemory env st (mkLearningEntry env fb i learning) with
    | Except.ok st1 => storeLearnings env fb st1 (i + 1) rest
    | Except.error e => Except.error e

/-- Source `updatePreferencesFromFeedback`: load preferences and return early when
absent; otherwise nudge `engagementGoals.overall` by the running average when
the engagement metric is truthy, store each learning as a memory entry, and
re-save the preferences. -/
def updatePreferencesFromFeedback (env : Env) (st : MemoryState)
    (fb : FeedbackEntry) : Except String MemoryState :=
  match getUserPreferences env st fb.userId with
  | (st1, none) => Except.ok st1
  | (st1, some preferences) =>
    let preferences1 :=
      if truthy fb.metrics.engagement then
        let currentGoal := jsOrZero (getGoal preferences.engagementGoals "overall")
        let newGoal := (currentGoal + (fb.metrics.engagement.getD 0)) / 2
        { preferences with engagementGoals := setGoal preferences.engagementGoals "overall" newGoal }
      else preferences
    match (if fb.learnings.length > 0 then storeLearnings env fb st1 0 fb.learnings
           else Except.ok st1) with
    | Except.error e => Except.error e
    | Except.ok st2 => updateUserPreferences env st2 preferences1

/-- Source `storeFeedback`: append to the user's feedback list, persist the whole
list (failure swallowed inside `saveToGreenfield`), then run the
preference-update step; any raised error propagates (none ever is raised). -/
def storeFeedback (env : Env) (st : MemoryState) (fb : FeedbackEntry) :
    Except String MemoryState :=
  let userFeedback := st.feedbackHistory fb.userId ++ [fb]
  let st1 : MemoryState :=
    { st with feedbackHistory := fun u => if u = fb.userId then userFeedback else st.feedbackHistory u }
  let st2 := saveToGreenfield env st1 fb.userId "feedback" (RemoteData.feedback userFeedback)
  updatePreferencesFromFeedback env st2 fb

/-- Source `clearUserData`: drop the user's three cache entries, then a best-effort
durable delete whose failure is swallowed inside `deleteFromGreenfield`. -/
def clearUserData (env : Env) (st : MemoryState) (userId : String) :
    Except String MemoryState :=
  let st1 : MemoryState :=
    { st with
      memories := fun u => if u = userId then [] else st.memories u
      feedbackHistory := fun u => if u = userId then [] else st.feedbackHistory u
      userPreferences := fun u => if u = userId then none else st.userPreferences u }
  Except.ok (deleteFromGreenfield env st1 userId)

/-- JS `Array.slice(-limit)`: the last `limit` elements, except that
`slice(-0)` is `slice(0)` and returns the whole array. -/
def sliceLast {α : Type} (l : List α) (limit : Nat) : List α :=
  if limit = 0 then l else l.drop (l.length - limit)

/-- Source `getConversationHistory`: the last `limit` cached entries of type
`conversation`, in insertion order. -/
def getConversationHistory (st : MemoryState) (userId : String) (limit : Nat) :
    List MemoryEntry :=
  sliceLast ((st.memories userId).filter (fun m => m.type = MemType.conversation)) limit

/-- The result object of `analyzeFeedbackPatterns` (its `bestTimeToPost` and
`commonFailures` fields are never written and the whole result is unused by
the caller). -/
structure FeedbackPatterns where
  successRate : Q
  avgEngagement : Q
deriving DecidableEq, Repr

/-- Source `analyzeFeedbackPatterns`: success rate and average engagement. -/
def analyzeFeedbackPatterns (feedback : List FeedbackEntry) : FeedbackPatterns :=
  { successRate :=
      (((feedback.filter (fun f => f.outcome = Outcome.success)).length : Q) /
        (feedback.length : Q)) * 100
    avgEngagement :=
      ((feedback.map (fun f => jsOrZero f.metrics.engagement)).sum) / (feedback.length : Q) }

/-- Two-digit zero padding for the fractional part of `toFixed(2)`. -/
def pad2 (n : Nat) : String :=
  if n < 10 then "0" ++ toString n else toString n

/-- The integer `n` with `n / 100` closest to `q`, larger `n` on ties —
the rounding ECMAScript `toFixed(2)` performs (exact here: every number on
the analysed paths is an exactly representable rational).  Computed on the
components of the canonical fraction `q * 100`: its floor is `n.fdiv d`, and
the fractional part is `≥ 1/2` iff `(n - floor * d) * 2 ≥ d`. -/
def jsRound2 (q : Q) : Int :=
  let scaled := q * 100
  let f := scaled.n.fdiv (scaled.d : Int)
  if (scaled.n - f * (scaled.d : Int)) * 2 ≥ (scaled.d : Int) then f + 1 else f

/-- JS `x.toFixed(2)`. -/
def toFixed2 (q : Q) : String :=
  let n := jsRound2 q
  let m := n.natAbs
  (if n < 0 then "-" else "") ++ toString (m / 100) ++ "." ++ pad2 (m % 100)

/-- The engagement values (`engagement || 0`) pushed for hour `h`, in feedback
order — the contents of `hourlyPerformance[h]`. -/
def hourEngagements (env : Env) (feedback : List FeedbackEntry) (h : Nat) : List Q :=
  (feedback.filter (fun f => (env.getHours f.timestamp).val = h)).map
    (fun f => jsOrZero f.metrics.engagement)

/-- One step of the best-hour scan: skip absent hours, replace the running
best on a strictly greater average. -/
def bestHourStep (env : Env) (feedback : List FeedbackEntry) (best : Nat × Q)
    (h : Nat) : Nat × Q :=
  let es := hourEngagements env feedback h
  if es.length = 0 then best
  else
    let avg := es.sum / (es.length : Q)
    if avg > best.2 then (h, avg) else best

/-- The `bestHour`/`bestAvg` scan of `analyzeTimePatterns`: both start at 0;
`Object.entries` over integer-like keys (hours 0–23) iterates in ascending
numeric order, so the scan visits hours 0,…,23 and skips absent ones. -/
def bestHourScan (env : Env) (feedback : List FeedbackEntry) : Nat × Q :=
  (List.range 24).foldl (bestHourStep env feedback) (0, 0)

/-- Source `analyzeTimePatterns`: group engagements by hour of day and report the
hour with the highest mean engagement. -/
def analyzeTimePatterns (env : Env) (feedback : List FeedbackEntry) : List String :=
  let best := bestHourScan env feedback
  ["Best posting time: " ++ toString best.1 ++ ":00 (avg engagement: " ++
    toFixed2 best.2 ++ "%)"]

/-- Source `learnFromFeedback`: `[]` on an empty feedback list; otherwise the
successful-posts average line (when any succeeded), the failure-count line
(when any failed), and the best-posting-time line.  The `analyzeFeedbackPatterns`
result is computed and discarded, as in the source. -/
def learnFromFeedback (env : Env) (st : MemoryState) (userId : String) : List String :=
  let feedback := st.feedbackHistory userId
  if feedback.length = 0 then []
  else
    let _patterns := analyzeFeedbackPatterns feedback
    let successfulActions := feedback.filter (fun f => f.outcome = Outcome.success)
    let l1 :=
      if successfulActions.length > 0 then
        let avgEngagement :=
          ((successfulActions.map (fun f => jsOrZero f.metrics.engagement)).sum) /
            (successfulActions.length : Q)
        ["Average engagement on successful posts: " ++ toFixed2 avgEngagement ++ "%"]
      else []
    let failedActions := feedback.filter (fun f => f.outcome = Outcome.failure)
    let l2 :=
      if failedActions.length > 0 then
        [toString failedActions.length ++ " actions failed - analyzing common patterns"]
      else []
    l1 ++ (l2 ++ analyzeTimePatterns env feedback)

/-- Success of an `Except` as a Boolean (the caller saw no raised error). -/
def exceptSucceeded (e : Except String MemoryState) : Bool :=
  match e with
  | Except.ok _ => true
  | Except.error _ => false


/-! ### States of interest, observation helpers and fixtures -/

/-- The empty service state: fresh process, empty durable store. -/
def stInit : MemoryState :=
  { memories := fun _ => []
    feedbackHistory := fun _ => []
    userPreferences := fun _ => none
    remote := fun _ _ => none }

/-- The state a finished operation returns.  All analysed operations succeed,
so the `stInit` fallback is never reached; it only makes the function total. -/
def stateOf (e : Except String MemoryState) : MemoryState :=
  match e with
  | Except.ok st => st
  | Except.error _ => stInit

/-- The `engagementGoals.overall` value currently cached for a user. -/
def overallGoal (st : MemoryState) (u : String) : Option Q :=
  match st.userPreferences u with
  | none => none
  | some p => getGoal p.engagementGoals "overall"

/-- Every cached memory entry is filed under its own `userId`. -/
def UserScoped (st : MemoryState) : Prop :=
  ∀ u : String, ∀ e ∈ st.memories u, e.userId = u

/-- Hour of day of an epoch-milliseconds timestamp in a fixed UTC-like zone:
one concrete realisation of the process-local `new Date(t).getHours()`. -/
def hourOfMillis (t : Int) : Fin 24 :=
  ⟨((t / 3600000) % 24).toNat % 24, Nat.mod_lt _ (by decide)⟩

/-- A baseline environment: the durable store works, the embedding service is
unreachable (its calls degrade as the code dictates) and search returns no ids. -/
def envStd : Env :=
  { embed := fun _ => none
    saveOk := true
    loadOk := true
    deleteOk := true
    search := fun _ _ _ => none
    getHours := hourOfMillis
    now := 0
    learningId := fun i => "learning_" ++ toString i }

/-- The baseline environment with the durable-store PUT failing. -/
def envPutFail : Env := { envStd with saveOk := false }

/-- The baseline environment with the durable-store DELETE failing. -/
def envDelFail : Env := { envStd with deleteOk := false }

/-- The baseline environment with the vector search returning the id `m1`. -/
def envSearchHit : Env := { envStd with search := fun _ _ _ => some ["m1"] }

/-- The `MemoryEntry` of the C4 scenario. -/
def m1entry : MemoryEntry :=
  { id := "m1", userId := "u1", type := MemType.conversation, content := "hi"
    metadata := [], timestamp := 1000, embedding := none }

/-- A preferences record for `u1` whose `engagementGoals.overall` is 0. -/
def pDemo : UserPreferences :=
  { userId := "u1", writingStyle := [], postingSchedule := ⟨none, none, none, none, none⟩
    contentTopics := [], avoidTopics := [], tonePreference := "casual"
    hashtagStrategy := "minimal", engagementGoals := [("overall", 0)] }

/-- A state in which `u1` has `pDemo` both cached and durably stored. -/
def stWithPrefs : MemoryState :=
  { stInit with
    userPreferences := fun u => if u = "u1" then some pDemo else none
    remote := fun u d => if u = "u1" ∧ d = "preferences" then some (RemoteData.prefs pDemo) else none }

/-- A state in which `u1` has the single cached memory entry `m1entry`. -/
def stOneMemory : MemoryState :=
  { stInit with memories := fun u => if u = "u1" then [m1entry] else [] }

/-- A feedback entry for `u1` with the given engagement metric and timestamp. -/
def fbAt (e : Option Q) (t : Int) : FeedbackEntry :=
  { actionId := "a1", userId := "u1", outcome := Outcome.success
    metrics := { engagement := e, clicks := none, impressions := none, sentiment := none }
    learnings := [], timestamp := t }

/-- A feedback entry for `u1` with the given engagement metric. -/
def fbWith (e : Option Q) : FeedbackEntry := fbAt e 1000

/-- A feedback entry for `u1` carrying one learning string. -/
def fbLearn : FeedbackEntry := { fbWith (some 10) with learnings := ["learned"] }

/-- The C6 scenario state: feedback at hours 9 and 14 with engagements 5 and 50. -/
def stC6 : MemoryState :=
  { stInit with feedbackHistory := fun u =>
      if u = "u1" then [fbAt (some 5) 32400000, fbAt (some 50) 50400000] else [] }

/-- A state whose feedback entries (hours 9 and 14) all have falsy engagement. -/
def stC10 : MemoryState :=
  { stInit with feedbackHistory := fun u =>
      if u = "u1" then [fbAt none 32400000, fbAt (some 0) 50400000] else [] }

/-! ### State-shape lemmas for the operations -/

lemma saveToGreenfield_memories (env : Env) (st : MemoryState) (u d : String)
    (x : RemoteData) : (saveToGreenfield env st u d x).memories = st.memories := by
  unfold saveToGreenfield; split <;> rfl

lemma saveToGreenfield_feedbackHistory (env : Env) (st : MemoryState) (u d : String)
    (x : RemoteData) : (saveToGreenfield env st u d x).feedbackHistory = st.feedbackHistory := by
  unfold saveToGreenfield; split <;> rfl

lemma saveToGreenfield_userPreferences (env : Env) (st : MemoryState) (u d : String)
    (x : RemoteData) : (saveToGreenfield env st u d x).userPreferences = st.userPreferences := by
  unfold saveToGreenfield; split <;> rfl

lemma saveToGreenfield_noSave (env : Env) (st : MemoryState) (u d : String)
    (x : RemoteData) (h : env.saveOk = false) : saveToGreenfield env st u d x = st := by
  simp [saveToGreenfield, h]

lemma saveToGreenfield_remote_ne (env : Env) (st : MemoryState) (userId dataType : String)
    (x : RemoteData) (u2 d2 : String) (hd : d2 ≠ dataType) :
    (saveToGreenfield env st userId dataType x).remote u2 d2 = st.remote u2 d2 := by
  unfold saveToGreenfield; split
  · simp [hd]
  · rfl

lemma withEmbedding_userId (env : Env) (entry : MemoryEntry) :
    (withEmbedding env entry).userId = entry.userId := by
  unfold withEmbedding; split <;> rfl

lemma withEmbedding_type (env : Env) (entry : MemoryEntry) :
    (withEmbedding env entry).type = entry.type := by
  unfold withEmbedding; split <;> rfl

lemma storeMemory_eq (env : Env) (st : MemoryState) (entry : MemoryEntry) :
    storeMemory env st entry = Except.ok (saveToGreenfield env
      { st with memories := fun u => if u = entry.userId
          then st.memories entry.userId ++ [withEmbedding env entry] else st.memories u }
      entry.userId "memories"
      (RemoteData.memories (st.memories entry.userId ++ [withEmbedding env entry]))) := rfl

lemma storeMemory_ok (env : Env) (st : MemoryState) (entry : MemoryEntry) : ∃ st2,
    storeMemory env st entry = Except.ok st2 ∧
    st2.userPreferences = st.userPreferences ∧
    st2.feedbackHistory = st.feedbackHistory ∧
    (env.saveOk = false → st2.remote = st.remote) := by
  refine ⟨_, storeMemory_eq env st entry, ?_, ?_, ?_⟩
  · rw [saveToGreenfield_userPreferences]
  · rw [saveToGreenfield_feedbackHistory]
  · intro h; rw [saveToGreenfield_noSave _ _ _ _ _ h]

lemma getUserPreferences_cacheHit (env : Env) (st : MemoryState) (u : String)
    (p : UserPreferences) (h : st.userPreferences u = some p) :
    getUserPreferences env st u = (st, some p) := by
  simp [getUserPreferences, h]

lemma getUserPreferences_of_none (env : Env) (st : MemoryState) (u : String)
    (h1 : st.userPreferences u = none)
    (h2 : loadFromGreenfield env st u "preferences" = none) :
    getUserPreferences env st u = (st, none) := by
  simp [getUserPreferences, h1, h2]

lemma getUserPreferences_fst (env : Env) (st : MemoryState) (u : String) :
    (getUserPreferences env st u).1.memories = st.memories ∧
    (getUserPreferences env st u).1.feedbackHistory = st.feedbackHistory ∧
    (getUserPreferences env st u).1.remote = st.remote := by
  unfold getUserPreferences
  split
  · exact ⟨rfl, rfl, rfl⟩
  · split
    · exact ⟨rfl, rfl, rfl⟩
    · exact ⟨rfl, rfl, rfl⟩

lemma storeLearnings_ok (env : Env) (fb : FeedbackEntry) :
    ∀ (ls : List String) (st : MemoryState) (i : Nat), ∃ st2,
      storeLearnings env fb st i ls = Except.ok st2 ∧
      st2.userPreferences = st.userPreferences ∧
      st2.feedbackHistory = st.feedbackHistory ∧
      (env.saveOk = false → st2.remote = st.remote)
  | [], st, i => ⟨st, rfl, rfl, rfl, fun _ => rfl⟩
  | l :: rest, st, i => by
    obtain ⟨stm, hm, hup, hfh, hrm⟩ := storeMemory_ok env st (mkLearningEntry env fb i l)
    obtain ⟨st2, h2, hup2, hfh2, hrm2⟩ := storeLearnings_ok env fb rest stm (i + 1)
    refine ⟨st2, ?_, ?_, ?_, ?_⟩
    · simp only [storeLearnings, hm]; exact h2
    · rw [hup2, hup]
    · rw [hfh2, hfh]
    · intro h; rw [hrm2 h, hrm h]


lemma stateOf_ok (st : MemoryState) : stateOf (Except.ok st) = st := rfl

lemma storeMemory_memories (env : Env) (st : MemoryState) (entry : MemoryEntry) :
    (stateOf (storeMemory env st entry)).memories =
      fun u => if u = entry.userId then st.memories entry.userId ++ [withEmbedding env entry]
               else st.memories u := by
  rw [storeMemory_eq, stateOf_ok, saveToGreenfield_memories]

lemma filter_conv_singleton (e : MemoryEntry) (hc : e.type = MemType.conversation) :
    List.filter (fun m => decide (m.type = MemType.conversation)) [e] = [e] := by
  simp [List.filter, hc]

lemma mem_sliceLast_append {α : Type} (l : List α) (x : α) (n : Nat) (hn : n ≠ 0) :
    x ∈ sliceLast (l ++ [x]) n := by
  unfold sliceLast
  rw [if_neg hn]
  have hle : (l ++ [x]).length - n ≤ l.length := by
    simp only [List.length_append, List.length_singleton]
    omega
  rw [List.drop_append_of_le_length hle]
  exact List.mem_append_right _ (List.mem_singleton_self x)

/-! ### Claim theorems -/

/-- C4: storing the conversation entry `m1` for `u1` with the embedding
service unreachable succeeds, the stored entry carries a 768-length all-zero
embedding, and it is included in `getConversationHistory("u1", 10)`. -/
theorem C4_zero_vector_fallback (env : Env) (st : MemoryState)
    (h : env.embed "hi" = none) :
    exceptSucceeded (storeMemory env st m1entry) = true ∧
    { m1entry with embedding := some (List.replicate 768 0) } ∈
      getConversationHistory (stateOf (storeMemory env st m1entry)) "u1" 10 := by
  have hg : generateEmbedding env "hi" = List.replicate 768 0 := by
    unfold generateEmbedding
    rw [h]
  have he : withEmbedding env m1entry =
      { m1entry with embedding := some (List.replicate 768 0) } := by
    have h0 : withEmbedding env m1entry =
        { m1entry with embedding := some (generateEmbedding env "hi") } := rfl
    rw [h0, hg]
  constructor
  · rw [storeMemory_eq]; rfl
  · have hmem : (stateOf (storeMemory env st m1entry)).memories "u1" =
        st.memories "u1" ++ [withEmbedding env m1entry] := by
      rw [storeMemory_memories]
      exact if_pos rfl
    unfold getConversationHistory
    rw [hmem, he, List.filter_append, filter_conv_singleton _ rfl]
    exact mem_sliceLast_append _ _ 10 (by decide)

/-- C4 witness: the scenario run concretely from the empty state in the
baseline environment (whose embedding endpoint is unreachable). -/
theorem C4_zero_vector_fallback_witness :
    exceptSucceeded (storeMemory envStd stInit m1entry) = true ∧
    { m1entry with embedding := some (List.replicate 768 0) } ∈
      getConversationHistory (stateOf (storeMemory envStd stInit m1entry)) "u1" 10 :=
  C4_zero_vector_fallback envStd stInit rfl

/-- C5: `learnFromFeedback` returns `[]` on an empty feedback list, and on a
non-empty list the best-posting-time summary line is always among the results. -/
theorem C5_best_time_always_reported (env : Env) (st : MemoryState) (u : String) :
    (st.feedbackHistory u = [] → learnFromFeedback env st u = []) ∧
    (st.feedbackHistory u ≠ [] →
      ("Best posting time: " ++ toString (bestHourScan env (st.feedbackHistory u)).1 ++
        ":00 (avg engagement: " ++ toFixed2 (bestHourScan env (st.feedbackHistory u)).2 ++ "%)")
        ∈ learnFromFeedback env st u) := by
  constructor
  · intro h
    simp [learnFromFeedback, h]
  · intro h
    unfold learnFromFeedback
    rw [if_neg (by simpa [List.length_eq_zero] using h)]
    refine List.mem_append_right _ (List.mem_append_right _ ?_)
    unfold analyzeTimePatterns
    exact List.mem_singleton_self _

/-- C5 witness: the empty branch on the empty state and the non-empty branch
on the two-entry C6 state. -/
theorem C5_best_time_always_reported_witness :
    learnFromFeedback envStd stInit "u1" = [] ∧
    ("Best posting time: " ++ toString (bestHourScan envStd (stC6.feedbackHistory "u1")).1 ++
      ":00 (avg engagement: " ++ toFixed2 (bestHourScan envStd (stC6.feedbackHistory "u1")).2 ++ "%)")
      ∈ learnFromFeedback envStd stC6 "u1" :=
  ⟨(C5_best_time_always_reported envStd stInit "u1").1 rfl,
   (C5_best_time_always_reported envStd stC6 "u1").2 (by decide)⟩

/-- C6: with feedback for `u1` at hours 9 and 14 carrying engagements 5 and
50, `learnFromFeedback("u1")` reports hour 14 as best with average 50.00. -/
theorem C6_hour14_best :
    "Best posting time: 14:00 (avg engagement: 50.00%)" ∈
      learnFromFeedback envStd stC6 "u1" := by decide


/-! ### Arithmetic and shape helpers for the remaining claims -/

lemma jsOrZero_falsy (x : Option Q) (h : x = none ∨ x = some 0) : jsOrZero x = 0 := by
  rcases h with h | h <;> simp [jsOrZero, h]

lemma qsum_zeros : ∀ (l : List Q), (∀ x ∈ l, x = 0) → l.sum = 0
  | [], _ => rfl
  | x :: rest, h => by
    rw [List.sum_cons, h x (List.mem_cons_self x rest),
      qsum_zeros rest (fun y hy => h y (List.mem_cons_of_mem x hy))]
    decide

lemma qgcd_zero_left (b : Nat) : qgcd 0 b = b := by
  simp [qgcd, gcdFuel]

lemma mkQ_zero (d : Int) (hd : 0 < d) : mkQ 0 d = 0 := by
  have h1 : ¬ d = 0 := by omega
  have h2 : 0 < d.natAbs := Int.natAbs_pos.mpr h1
  have h3 : ¬ d < 0 := by omega
  simp [mkQ, h1, h3, qgcd_zero_left, Int.zero_tdiv, Nat.div_self h2]
  rfl

lemma natCast_n (k : Nat) : (k : Q).n = (k : Int) := rfl

lemma natCast_d (k : Nat) : (k : Q).d = 1 := rfl

lemma q_zero_n : (0 : Q).n = 0 := rfl

lemma q_zero_d : (0 : Q).d = 1 := rfl

lemma zero_div_natCast (k : Nat) (hk : ¬ k = 0) : (0 : Q) / (k : Q) = 0 := by
  have h0 : (0 : Q) / (k : Q) = mkQ 0 (k : Int) := by
    show Q.div 0 (k : Q) = mkQ 0 (k : Int)
    unfold Q.div
    rw [natCast_n, natCast_d, q_zero_n, q_zero_d]
    norm_num
  rw [h0]
  exact mkQ_zero _ (by exact_mod_cast Nat.pos_of_ne_zero hk)

/-- The engagement-goal nudge of `updatePreferencesFromFeedback`, as a list:
`goals.overall = ((goals.overall || 0) + engagement) / 2`. -/
def nudgedGoals (p : UserPreferences) (e : Q) : List (String × Q) :=
  let currentGoal := jsOrZero (getGoal p.engagementGoals "overall")
  let newGoal := (currentGoal + e) / 2
  setGoal p.engagementGoals "overall" newGoal

/-- The preferences record after the engagement-goal nudge. -/
def nudged (fb : FeedbackEntry) (p : UserPreferences) : UserPreferences :=
  { p with engagementGoals := nudgedGoals p (fb.metrics.engagement.getD 0) }

lemma storeFeedback_eq (env : Env) (st : MemoryState) (fb : FeedbackEntry) :
    storeFeedback env st fb = updatePreferencesFromFeedback env
      (saveToGreenfield env
        { st with feedbackHistory := fun u => if u = fb.userId
            then st.feedbackHistory fb.userId ++ [fb] else st.feedbackHistory u }
        fb.userId "feedback"
        (RemoteData.feedback (st.feedbackHistory fb.userId ++ [fb]))) fb := rfl

lemma updateUserPreferences_eq (env : Env) (st : MemoryState) (p : UserPreferences) :
    updateUserPreferences env st p = Except.ok (saveToGreenfield env
      { st with userPreferences := fun u => if u = p.userId then some p
                else st.userPreferences u }
      p.userId "preferences" (RemoteData.prefs p)) := rfl

lemma updatePreferencesFromFeedback_somePrefs (env : Env) (st : MemoryState)
    (fb : FeedbackEntry) (p : UserPreferences)
    (hp : st.userPreferences fb.userId = some p) :
    updatePreferencesFromFeedback env st fb =
      (match (if fb.learnings.length > 0 then storeLearnings env fb st 0 fb.learnings
              else Except.ok st) with
       | Except.error e => Except.error e
       | Except.ok st2 => updateUserPreferences env st2
           (if truthy fb.metrics.engagement then nudged fb p else p)) := by
  unfold updatePreferencesFromFeedback
  rw [getUserPreferences_cacheHit env st fb.userId p hp]
  rfl

lemma updateUserPreferences_keeps (env : Env) (st3 : MemoryState) (p : UserPreferences)
    (u : String) (hp3 : st3.userPreferences u = some p) :
    exceptSucceeded (updateUserPreferences env st3 p) = true ∧
    (stateOf (updateUserPreferences env st3 p)).userPreferences u = some p := by
  rw [updateUserPreferences_eq]
  refine ⟨rfl, ?_⟩
  rw [stateOf_ok, saveToGreenfield_userPreferences]
  by_cases h : u = p.userId
  · simp [h]
  · simp only [if_neg h]
    exact hp3


/-- C9: when the engagement metric is absent or 0 the truthiness guard skips
the goal update, so `storeFeedback` succeeds and leaves the cached preferences
object of the user unchanged (in particular `engagementGoals.overall`). -/
theorem C9_falsy_engagement_keeps_goal (env : Env) (st : MemoryState)
    (fb : FeedbackEntry) (p : UserPreferences)
    (hp : st.userPreferences fb.userId = some p)
    (he : fb.metrics.engagement = none ∨ fb.metrics.engagement = some 0) :
    exceptSucceeded (storeFeedback env st fb) = true ∧
    (stateOf (storeFeedback env st fb)).userPreferences fb.userId = some p := by
  rw [storeFeedback_eq]
  have hp2 : (saveToGreenfield env
      { st with feedbackHistory := fun u => if u = fb.userId
          then st.feedbackHistory fb.userId ++ [fb] else st.feedbackHistory u }
      fb.userId "feedback"
      (RemoteData.feedback (st.feedbackHistory fb.userId ++ [fb]))).userPreferences
        fb.userId = some p := by
    rw [saveToGreenfield_userPreferences]
    exact hp
  rw [updatePreferencesFromFeedback_somePrefs env _ fb p hp2]
  have ht : truthy fb.metrics.engagement = false := by
    rcases he with h | h <;> simp [truthy, h]
  rw [ht]
  simp only [Bool.false_eq_true, if_false]
  by_cases hl : fb.learnings.length > 0
  · rw [if_pos hl]
    obtain ⟨st3, heq, hup, _, _⟩ := storeLearnings_ok env fb fb.learnings _ 0
    rw [heq]
    exact updateUserPreferences_keeps env st3 p fb.userId (by rw [hup]; exact hp2)
  · rw [if_neg hl]
    exact updateUserPreferences_keeps env _ p fb.userId hp2

/-- C9 witness: feedback with engagement 0 for a user with cached preferences. -/
theorem C9_falsy_engagement_keeps_goal_witness :
    exceptSucceeded (storeFeedback envStd stWithPrefs (fbWith (some 0))) = true ∧
    (stateOf (storeFeedback envStd stWithPrefs (fbWith (some 0)))).userPreferences
      (fbWith (some 0)).userId = some pDemo :=
  C9_falsy_engagement_keeps_goal envStd stWithPrefs (fbWith (some 0)) pDemo rfl
    (Or.inr rfl)

/-- C10: on a non-empty feedback list all of whose engagement metrics are
absent or 0, every per-hour average is 0, the strictly-greater scan never
replaces the initial `(0, 0)`, and the summary reports hour 0 with 0.00. -/
theorem C10_all_falsy_reports_hour0 (env : Env) (st : MemoryState) (u : String)
    (hne : st.feedbackHistory u ≠ [])
    (hz : ∀ f ∈ st.feedbackHistory u,
      f.metrics.engagement = none ∨ f.metrics.engagement = some 0) :
    "Best posting time: 0:00 (avg engagement: 0.00%)" ∈ learnFromFeedback env st u := by
  have hbest : bestHourScan env (st.feedbackHistory u) = (0, 0) := by
    unfold bestHourScan
    refine List.foldl_fixed' ?_ _
    intro h
    simp only [bestHourStep]
    by_cases hlen : (hourEngagements env (st.feedbackHistory u) h).length = 0
    · rw [if_pos hlen]
    · rw [if_neg hlen]
      have hsum : (hourEngagements env (st.feedbackHistory u) h).sum = 0 := by
        refine qsum_zeros _ ?_
        intro x hx
        unfold hourEngagements at hx
        obtain ⟨f, hf, hfx⟩ := List.mem_map.mp hx
        rw [← hfx]
        exact jsOrZero_falsy _ (hz f (List.mem_filter.mp hf).1)
      have havg : (hourEngagements env (st.feedbackHistory u) h).sum /
          ((hourEngagements env (st.feedbackHistory u) h).length : Q) = 0 := by
        rw [hsum]
        exact zero_div_natCast _ hlen
      rw [havg]
      rw [if_neg (by decide : ¬ ((0 : Q) > ((0, (0 : Q)) : Nat × Q).2))]
  unfold learnFromFeedback
  rw [if_neg (by simpa [List.length_eq_zero] using hne)]
  refine List.mem_append_right _ (List.mem_append_right _ ?_)
  unfold analyzeTimePatterns
  rw [hbest]
  decide

/-- C10 witness: two entries (hours 9 and 14) with engagement `undefined` and 0. -/
theorem C10_all_falsy_reports_hour0_witness :
    "Best posting time: 0:00 (avg engagement: 0.00%)" ∈
      learnFromFeedback envStd stC10 "u1" :=
  C10_all_falsy_reports_hour0 envStd stC10 "u1" (by decide) (by decide)

/-- C8: under the invariant that every cached entry is filed under its own
user, `retrieveMemories` never returns an entry of another user, and
`storeMemory` preserves the invariant (entries enter the cache only keyed by
their own `userId`). -/
theorem C8_no_cross_user_retrieval (env : Env) (st : MemoryState)
    (hs : UserScoped st) :
    (∀ (u q : String) (limit : Nat), ∀ e ∈ retrieveMemories env st u q limit,
      e.userId = u) ∧
    (∀ (entry : MemoryEntry) (st2 : MemoryState),
      storeMemory env st entry = Except.ok st2 → UserScoped st2) := by
  constructor
  · intro u q limit e he
    simp only [retrieveMemories, searchSimilarMemories] at he
    rcases hsr : env.search u (generateEmbedding env q) limit with _ | ids
    · rw [hsr] at he
      simp at he
    · rw [hsr] at he
      simp only at he
      exact hs u e (List.mem_filter.mp he).1
  · intro entry st2 h2
    rw [storeMemory_eq] at h2
    injection h2 with h2
    subst h2
    intro u e hme
    rw [saveToGreenfield_memories] at hme
    simp only at hme
    by_cases hu : u = entry.userId
    · rw [if_pos hu] at hme
      rcases List.mem_append.mp hme with hold | hnew
      · rw [hu]
        exact hs entry.userId e hold
      · rw [List.mem_singleton.mp hnew, withEmbedding_userId, hu]
    · rw [if_neg hu] at hme
      exact hs u e hme


/-- C8 witness: the one cached entry of `u1`, returned by a concrete
retrieval, belongs to `u1`. -/
theorem C8_no_cross_user_retrieval_witness : m1entry.userId = "u1" :=
  (C8_no_cross_user_retrieval envSearchHit stOneMemory (by
    intro u e he
    simp only [stOneMemory, stInit] at he
    by_cases hu : u = "u1"
    · rw [if_pos hu] at he
      rw [List.mem_singleton.mp he, hu]
      rfl
    · rw [if_neg hu] at he
      exact absurd he (List.not_mem_nil e))).1 "u1" "hello" 5 m1entry (by decide)

lemma clearUserData_eq (env : Env) (st : MemoryState) (userId : String) :
    clearUserData env st userId = Except.ok (deleteFromGreenfield env
      { st with
        memories := fun u => if u = userId then [] else st.memories u
        feedbackHistory := fun u => if u = userId then [] else st.feedbackHistory u
        userPreferences := fun u => if u = userId then none else st.userPreferences u }
      userId) := rfl

lemma deleteFromGreenfield_noDelete (env : Env) (st : MemoryState) (u : String)
    (h : env.deleteOk = false) : deleteFromGreenfield env st u = st := by
  simp [deleteFromGreenfield, h]

/-- C2 counterexample: for `u1` with preferences cached and durably stored, a
`clearUserData` whose remote DELETE silently fails followed by
`getUserPreferences` returns the preferences reloaded from the remote store —
not null as the claim states. -/
theorem C2_counterexample :
    envDelFail.deleteOk = false ∧
    stWithPrefs.remote "u1" "preferences" = some (RemoteData.prefs pDemo) ∧
    (getUserPreferences envDelFail
      (stateOf (clearUserData envDelFail stWithPrefs "u1")) "u1").2 = some pDemo := by
  decide

/-- C2 amended: after `clearUserData` with a silently failed durable delete,
`getUserPreferences` returns null only if the durable load does not yield the
preferences; when the remote store is reachable and still holds them, they
are reloaded and returned. -/
theorem C2_reload_after_failed_delete (env : Env) (st : MemoryState) (u : String)
    (p : UserPreferences)
    (hd : env.deleteOk = false) (hl : env.loadOk = true)
    (hr : st.remote u "preferences" = some (RemoteData.prefs p)) :
    exceptSucceeded (clearUserData env st u) = true ∧
    (getUserPreferences env (stateOf (clearUserData env st u)) u).2 = some p := by
  rw [clearUserData_eq, deleteFromGreenfield_noDelete _ _ _ hd]
  refine ⟨rfl, ?_⟩
  rw [stateOf_ok]
  simp only [getUserPreferences, loadFromGreenfield, hl]
  simp only [if_pos rfl, if_true]
  rw [hr]

/-- C2 witness: the amended statement run on the concrete C2 scenario. -/
theorem C2_reload_after_failed_delete_witness :
    exceptSucceeded (clearUserData envDelFail stWithPrefs "u1") = true ∧
    (getUserPreferences envDelFail
      (stateOf (clearUserData envDelFail stWithPrefs "u1")) "u1").2 = some pDemo :=
  C2_reload_after_failed_delete envDelFail stWithPrefs "u1" pDemo rfl rfl (by decide)

/-- C3 counterexample: feedback carrying one learning for a user with no
stored preferences creates no memory entry at all (the claim expects one
`feedback`-category entry per learning). -/
theorem C3_counterexample :
    fbLearn.learnings = ["learned"] ∧
    stInit.userPreferences fbLearn.userId = none ∧
    (stateOf (storeFeedback envStd stInit fbLearn)).memories "u1" = [] := by
  decide

/-- C3 amended: for a user with no stored preferences (neither cached nor
loadable), `storeFeedback` appends to the feedback list but creates no memory
entries and changes no preferences — the whole preference-update step,
including the learnings-to-memory loop, exits early. -/
theorem C3_no_learning_entries_without_prefs (env : Env) (st : MemoryState)
    (fb : FeedbackEntry)
    (hc : st.userPreferences fb.userId = none)
    (hl : loadFromGreenfield env st fb.userId "preferences" = none) :
    exceptSucceeded (storeFeedback env st fb) = true ∧
    (stateOf (storeFeedback env st fb)).memories = st.memories ∧
    (stateOf (storeFeedback env st fb)).userPreferences = st.userPreferences ∧
    (stateOf (storeFeedback env st fb)).feedbackHistory fb.userId =
      st.feedbackHistory fb.userId ++ [fb] := by
  rw [storeFeedback_eq]
  set stf : MemoryState :=
    { st with feedbackHistory := fun u => if u = fb.userId
        then st.feedbackHistory fb.userId ++ [fb] else st.feedbackHistory u } with hstf
  set st2 : MemoryState := saveToGreenfield env stf fb.userId "feedback"
    (RemoteData.feedback (st.feedbackHistory fb.userId ++ [fb])) with hst2
  have h1 : st2.userPreferences fb.userId = none := by
    rw [hst2, saveToGreenfield_userPreferences]
    exact hc
  have h2 : loadFromGreenfield env st2 fb.userId "preferences" = none := by
    unfold loadFromGreenfield at hl ⊢
    rw [hst2, saveToGreenfield_remote_ne _ _ _ _ _ _ _ (by decide)]
    exact hl
  have hupd : updatePreferencesFromFeedback env st2 fb = Except.ok st2 := by
    unfold updatePreferencesFromFeedback
    rw [getUserPreferences_of_none env st2 fb.userId h1 h2]
  rw [hupd, stateOf_ok]
  refine ⟨rfl, ?_, ?_, ?_⟩
  · rw [hst2, saveToGreenfield_memories]
  · rw [hst2, saveToGreenfield_userPreferences]
  · rw [hst2, saveToGreenfield_feedbackHistory]
    exact if_pos rfl

/-- C3 witness: the amended statement run on the concrete C3 scenario. -/
theorem C3_no_learning_entries_without_prefs_witness :
    exceptSucceeded (storeFeedback envStd stInit fbLearn) = true ∧
    (stateOf (storeFeedback envStd stInit fbLearn)).memories = stInit.memories ∧
    (stateOf (storeFeedback envStd stInit fbLearn)).userPreferences = stInit.userPreferences ∧
    (stateOf (storeFeedback envStd stInit fbLearn)).feedbackHistory fbLearn.userId =
      stInit.feedbackHistory fbLearn.userId ++ [fbLearn] :=
  C3_no_learning_entries_without_prefs envStd stInit fbLearn rfl rfl


lemma updf_tail_ok (env : Env) (st1 : MemoryState) (fb : FeedbackEntry)
    (p1 : UserPreferences) :
    ∃ st2, (match (if fb.learnings.length > 0 then storeLearnings env fb st1 0 fb.learnings
            else Except.ok st1) with
      | Except.error e => Except.error e
      | Except.ok st3 => updateUserPreferences env st3 p1) = Except.ok st2 ∧
      (env.saveOk = false → st2.remote = st1.remote) := by
  by_cases hl : fb.learnings.length > 0
  · rw [if_pos hl]
    obtain ⟨st3, heq, _, _, hrm⟩ := storeLearnings_ok env fb fb.learnings st1 0
    rw [heq]
    show ∃ st2, updateUserPreferences env st3 p1 = Except.ok st2 ∧
      (env.saveOk = false → st2.remote = st1.remote)
    rw [updateUserPreferences_eq]
    refine ⟨_, rfl, ?_⟩
    intro h
    rw [saveToGreenfield_noSave _ _ _ _ _ h]
    exact hrm h
  · rw [if_neg hl]
    show ∃ st2, updateUserPreferences env st1 p1 = Except.ok st2 ∧
      (env.saveOk = false → st2.remote = st1.remote)
    rw [updateUserPreferences_eq]
    refine ⟨_, rfl, ?_⟩
    intro h
    rw [saveToGreenfield_noSave _ _ _ _ _ h]

lemma updatePreferencesFromFeedback_ok (env : Env) (st : MemoryState)
    (fb : FeedbackEntry) :
    ∃ st2, updatePreferencesFromFeedback env st fb = Except.ok st2 ∧
      (env.saveOk = false → st2.remote = st.remote) := by
  have hfst := getUserPreferences_fst env st fb.userId
  unfold updatePreferencesFromFeedback
  rcases hg : getUserPreferences env st fb.userId with ⟨st1, r⟩
  rw [hg] at hfst
  rcases r with _ | p
  · exact ⟨st1, rfl, fun _ => hfst.2.2⟩
  · obtain ⟨st2, heq2, hrm2⟩ := updf_tail_ok env st1 fb
      (if truthy fb.metrics.engagement then nudged fb p else p)
    exact ⟨st2, heq2, fun h => (hrm2 h).trans hfst.2.2⟩

/-- C1 counterexample: with the durable-store PUT failing, both `storeFeedback`
and `storeMemory` still report success to the caller, and the durable store
holds nothing — the failure was not raised. -/
theorem C1_counterexample :
    envPutFail.saveOk = false ∧
    exceptSucceeded (storeFeedback envPutFail stInit (fbWith (some 10))) = true ∧
    exceptSucceeded (storeMemory envPutFail stInit m1entry) = true ∧
    (stateOf (storeFeedback envPutFail stInit (fbWith (some 10)))).remote
      "u1" "feedback" = none := by
  decide

/-- C1 amended: when the durable-persistence write fails, the failure is
caught and logged inside `saveToGreenfield`, so `storeFeedback` and
`storeMemory` still return success to the caller and the durable store is
left unchanged. -/
theorem C1_save_failure_swallowed (env : Env) (st : MemoryState)
    (fb : FeedbackEntry) (entry : MemoryEntry) (h : env.saveOk = false) :
    exceptSucceeded (storeFeedback env st fb) = true ∧
    exceptSucceeded (storeMemory env st entry) = true ∧
    (stateOf (storeFeedback env st fb)).remote = st.remote ∧
    (stateOf (storeMemory env st entry)).remote = st.remote := by
  have hsf : ∃ st2, storeFeedback env st fb = Except.ok st2 ∧ st2.remote = st.remote := by
    rw [storeFeedback_eq, saveToGreenfield_noSave _ _ _ _ _ h]
    obtain ⟨st2, heq, hrm⟩ := updatePreferencesFromFeedback_ok env _ fb
    exact ⟨st2, heq, hrm h⟩
  obtain ⟨st2, heq, hrm⟩ := hsf
  obtain ⟨st3, heq3, _, _, hrm3⟩ := storeMemory_ok env st entry
  rw [heq, heq3]
  exact ⟨rfl, rfl, hrm, hrm3 h⟩

/-- C1 witness: the amended statement run on the concrete failing-PUT scenario. -/
theorem C1_save_failure_swallowed_witness :
    exceptSucceeded (storeFeedback envPutFail stInit (fbWith (some 10))) = true ∧
    exceptSucceeded (storeMemory envPutFail stInit m1entry) = true ∧
    (stateOf (storeFeedback envPutFail stInit (fbWith (some 10)))).remote = stInit.remote ∧
    (stateOf (storeMemory envPutFail stInit m1entry)).remote = stInit.remote :=
  C1_save_failure_swallowed envPutFail stInit (fbWith (some 10)) m1entry rfl

lemma getGoal_setGoal (g : List (String × Q)) (k : String) (v : Q) :
    getGoal (setGoal g k v) k = some v := by
  induction g with
  | nil => simp [setGoal, getGoal]
  | cons kv rest ih =>
    by_cases h : kv.1 = k
    · simp [setGoal, getGoal, h]
    · simp [setGoal, getGoal, h, ih]

lemma updateUserPreferences_sets (env : Env) (st3 : MemoryState)
    (p1 : UserPreferences) (u : String) (hu : p1.userId = u) :
    exceptSucceeded (updateUserPreferences env st3 p1) = true ∧
    (stateOf (updateUserPreferences env st3 p1)).userPreferences u = some p1 := by
  rw [updateUserPreferences_eq]
  refine ⟨rfl, ?_⟩
  rw [stateOf_ok, saveToGreenfield_userPreferences]
  simp [hu]

lemma storeFeedback_goal_nudge (env : Env) (st : MemoryState) (fb : FeedbackEntry)
    (p : UserPreferences) (v : Q)
    (hp : st.userPreferences fb.userId = some p) (hpu : p.userId = fb.userId)
    (he : fb.metrics.engagement = some v) (hv : ¬ v = 0) :
    exceptSucceeded (storeFeedback env st fb) = true ∧
    (stateOf (storeFeedback env st fb)).userPreferences fb.userId =
      some (nudged fb p) := by
  rw [storeFeedback_eq]
  have hp2 : (saveToGreenfield env
      { st with feedbackHistory := fun u => if u = fb.userId
          then st.feedbackHistory fb.userId ++ [fb] else st.feedbackHistory u }
      fb.userId "feedback"
      (RemoteData.feedback (st.feedbackHistory fb.userId ++ [fb]))).userPreferences
        fb.userId = some p := by
    rw [saveToGreenfield_userPreferences]
    exact hp
  rw [updatePreferencesFromFeedback_somePrefs env _ fb p hp2]
  have ht : (if truthy fb.metrics.engagement then nudged fb p else p) = nudged fb p := by
    have h1 : truthy fb.metrics.engagement = true := by simp [truthy, he, hv]
    rw [h1]
    simp
  rw [ht]
  by_cases hl : fb.learnings.length > 0
  · rw [if_pos hl]
    obtain ⟨st3, heq, hup, _, _⟩ := storeLearnings_ok env fb fb.learnings _ 0
    rw [heq]
    exact updateUserPreferences_sets env st3 (nudged fb p) fb.userId hpu
  · rw [if_neg hl]
    exact updateUserPreferences_sets env _ (nudged fb p) fb.userId hpu

/-- C7: starting from cached preferences with `engagementGoals.overall = 0`,
two `storeFeedback` calls with engagements 10 then 20 leave the goal at 5
after the first call and at 25/2 = 12.5 after the second — the running
average `(currentGoal + engagement) / 2` applied at each call. -/
theorem C7_running_average (env : Env) (st : MemoryState) (u : String)
    (p : UserPreferences) (fb1 fb2 : FeedbackEntry)
    (hu1 : fb1.userId = u) (hu2 : fb2.userId = u)
    (he1 : fb1.metrics.engagement = some 10) (he2 : fb2.metrics.engagement = some 20)
    (hp : st.userPreferences u = some p) (hpu : p.userId = u)
    (hg : getGoal p.engagementGoals "overall" = some 0) :
    exceptSucceeded (storeFeedback env st fb1) = true ∧
    overallGoal (stateOf (storeFeedback env st fb1)) u = some 5 ∧
    exceptSucceeded (storeFeedback env (stateOf (storeFeedback env st fb1)) fb2) = true ∧
    overallGoal (stateOf (storeFeedback env
      (stateOf (storeFeedback env st fb1)) fb2)) u = some (mkQ 25 2) := by
  obtain ⟨hs1, hp1⟩ := storeFeedback_goal_nudge env st fb1 p 10
    (by rw [hu1]; exact hp) (by rw [hu1]; exact hpu) he1 (by decide)
  have hgoal1 : getGoal (nudged fb1 p).engagementGoals "overall" = some 5 := by
    show getGoal (nudgedGoals p (fb1.metrics.engagement.getD 0)) "overall" = some 5
    simp only [nudgedGoals]
    rw [getGoal_setGoal, hg, he1]
    decide
  have hp1u : (stateOf (storeFeedback env st fb1)).userPreferences u =
      some (nudged fb1 p) := by
    rw [← hu1]
    exact hp1
  obtain ⟨hs2, hp2⟩ := storeFeedback_goal_nudge env (stateOf (storeFeedback env st fb1))
    fb2 (nudged fb1 p) 20 (by rw [hu2]; exact hp1u)
    (by rw [hu2]; exact hpu) he2 (by decide)
  have hgoal2 : getGoal (nudged fb2 (nudged fb1 p)).engagementGoals "overall" =
      some (mkQ 25 2) := by
    show getGoal (nudgedGoals (nudged fb1 p) (fb2.metrics.engagement.getD 0))
      "overall" = some (mkQ 25 2)
    simp only [nudgedGoals]
    rw [getGoal_setGoal, hgoal1, he2]
    decide
  refine ⟨hs1, ?_, hs2, ?_⟩
  · unfold overallGoal
    rw [hp1u]
    exact hgoal1
  · unfold overallGoal
    rw [← hu2, hp2]
    exact hgoal2

/-- C7 witness: the scenario run concretely from `stWithPrefs`. -/
theorem C7_running_average_witness :
    exceptSucceeded (storeFeedback envStd stWithPrefs (fbWith (some 10))) = true ∧
    overallGoal (stateOf (storeFeedback envStd stWithPrefs (fbWith (some 10)))) "u1"
      = some 5 ∧
    exceptSucceeded (storeFeedback envStd
      (stateOf (storeFeedback envStd stWithPrefs (fbWith (some 10))))
      (fbWith (some 20))) = true ∧
    overallGoal (stateOf (storeFeedback envStd
      (stateOf (storeFeedback envStd stWithPrefs (fbWith (some 10))))
      (fbWith (some 20)))) "u1" = some (mkQ 25 2) :=
  C7_running_average envStd stWithPrefs "u1" pDemo (fbWith (some 10)) (fbWith (some 20))
    rfl rfl rfl rfl (by decide) rfl (by decide)

end SovereignAgent
